import Mathlib

/-!
# Verification of the spmatch CLI driver (src/src/spmatch.cpp)

A shallow embedding of the command-line driver of the spmatch stereo-matching
program.  Pixel intensities and disparities (C++ double) are modelled as
rational numbers; C++ std::string values are modelled as List Char so that the
position-based insert/replace operations of writeDisparityMap can be stated
exactly.  Parts of the program that live in headers absent from the sources
(params.hpp, stereo.hpp and the image implementation) are modelled from the
spec; each such definition carries a doc comment starting with
"Modelled from the spec:".
-/

namespace SPMatch

/-- The OutOfBounds policy enumeration (declared in params.hpp; its five
variants are named in the stream extraction operator of spmatch.cpp). -/
inductive OutOfBounds where
  | REPEAT_PIXEL
  | BLACK_PIXEL
  | ZERO_COST
  | ERROR
  | NAN_COST
deriving DecidableEq, Repr

/-- The global parameter block (struct Params of params.hpp, as populated by
setDefaults and the option table of main in spmatch.cpp). -/
structure Params where
  ALFA : Rat
  TAU_COL : Rat
  TAU_GRAD : Rat
  GAMMA : Rat
  WINDOW_SIZE : Nat
  MIN_D : Int
  MAX_D : Int
  ITERATIONS : Nat
  MAX_SLOPE : Rat
  NORMALIZE_GRADIENTS : Bool
  OUT_OF_BOUNDS : OutOfBounds
  RESIZE_WINDOWS : Bool
  PLANES_SATURATION : Bool
  USE_PSEUDORAND : Bool
  CONST_DISPARITIES : Bool
  LOG : Int
deriving DecidableEq, Repr

/-- setDefaults of spmatch.cpp: the default values written into the global
params struct before command-line parsing. -/
def setDefaults : Params where
  ALFA := 1/2
  TAU_COL := 60
  TAU_GRAD := 30
  GAMMA := 15
  WINDOW_SIZE := 35
  MIN_D := 0
  MAX_D := 70
  ITERATIONS := 3
  MAX_SLOPE := 45
  NORMALIZE_GRADIENTS := true
  OUT_OF_BOUNDS := .NAN_COST
  RESIZE_WINDOWS := true
  PLANES_SATURATION := true
  USE_PSEUDORAND := false
  CONST_DISPARITIES := false
  LOG := 1

/-- The stream extraction operator for Params::OutOfBounds in spmatch.cpp:
maps the five recognized tokens to their variants and throws
std::runtime_error on any other token. -/
def parseOutOfBounds (token : String) : Except String OutOfBounds :=
  if token = "repeat" then .ok .REPEAT_PIXEL
  else if token = "black" then .ok .BLACK_PIXEL
  else if token = "zero" then .ok .ZERO_COST
  else if token = "error" then .ok .ERROR
  else if token = "nan" then .ok .NAN_COST
  else .error "Invalid OutOfBounds selection"

/-! ## C++ std::string primitives used by writeDisparityMap -/

/-- std::string::rfind for a single character: the index of the last
occurrence, or none (npos) when the character does not occur. -/
def rfindChar : List Char → Char → Option Nat
  | [], _ => none
  | x :: xs, c =>
    match rfindChar xs c with
    | some i => some (i + 1)
    | none => if x = c then some 0 else none

/-- std::string::insert(pos, t) for pos ≤ size: the inserted characters are
placed before the character at index pos.  (For pos > size the C++ call
throws std::out_of_range; callers model that case separately.) -/
def strInsert (s : List Char) (pos : Nat) (t : List Char) : List Char :=
  s.take pos ++ t ++ s.drop pos

/-- std::string::replace(pos, count, t) for pos ≤ size: the count characters
starting at pos (fewer if the string ends first) are replaced by t. -/
def strReplace (s : List Char) (pos count : Nat) (t : List Char) : List Char :=
  s.take pos ++ t ++ s.drop (pos + count)

/-! ## The four output paths derived by writeDisparityMap -/

/-- The four derived output paths of writeDisparityMap. -/
structure OutPaths where
  leftImg : List Char
  rightImg : List Char
  leftCsv : List Char
  rightCsv : List Char
deriving DecidableEq, Repr

/-- Errors the driver can raise; an uncaught C++ exception aborts the
process. -/
inductive Err where
  /-- std::out_of_range from std::string::insert at position npos. -/
  | outOfRangeInsert
  /-- std::runtime_error from the OutOfBounds extraction operator, raised
  while po::store converts option values. -/
  | invalidOptionValue
  /-- boost required_option: the mandatory inputs option is absent
  (raised by po::notify). -/
  | requiredOptionMissing
  /-- std::runtime_error "Need two images". -/
  | needTwoImages
  /-- std::runtime_error "File not found: ...". -/
  | fileNotFound
  /-- Invalid parameter block rejected by the core before computing. -/
  | invalidParameters
  /-- Failure while writing an output image. -/
  | imageWriteFailed
deriving DecidableEq, Repr

/-- The path block at the top of writeDisparityMap (spmatch.cpp lines
203-211): extPos is rfind of the dot; when the dot is absent rfind yields
npos and the first insert throws std::out_of_range; otherwise the image
paths get "L"/"R" inserted at extPos and the text paths replace 10
characters from extPos by "L.csv"/"R.csv". -/
def setOutputPaths (disparityPath : List Char) : Except Err OutPaths :=
  match rfindChar disparityPath '.' with
  | none => .error .outOfRangeInsert
  | some extPos =>
    .ok { leftImg := strInsert disparityPath extPos ['L']
          rightImg := strInsert disparityPath extPos ['R']
          leftCsv := strReplace disparityPath extPos 10 ("L.csv".toList)
          rightCsv := strReplace disparityPath extPos 10 ("R.csv".toList) }

/-! ## Images, planes and the disparity core

The stereo core (stereo.hpp and the image implementation) is not among the
sources; the definitions below marked "Modelled from the spec:" reconstruct
the interface the driver uses from the spec's description. -/

/-- An immutable decoded image: three floating-point channels, modelled over
the rationals. -/
structure ImageView where
  width : Nat
  height : Nat
  pixel : Nat → Nat → Rat × Rat × Rat

/-- A dense per-pixel disparity map with its validity mask, the core's
output type. -/
structure DisparityMap where
  width : Nat
  height : Nat
  get : Nat → Nat → Rat
  valid : Nat → Nat → Bool

/-- The two views of the stereo pair. -/
inductive View where
  | left
  | right
deriving DecidableEq, Repr

/-- A 64-bit mixing step for the deterministic per-pixel RNG seeding. -/
def mix (a b : Nat) : Nat :=
  (a * 6364136223846793005 + b + 1442695040888963407) % (2 ^ 64)

/-- Modelled from the spec: the per-pixel RNG seed, a deterministic hash of
the global seed and the pixel coordinate (spec section 5, shared
resources). -/
def pixelSeed (seed w h : Nat) : Nat := mix (mix seed w) h

/-- A slanted-plane disparity function d(w, h) = a*w + b*h + c. -/
structure Plane where
  a : Rat
  b : Rat
  c : Rat
deriving DecidableEq, Repr

/-- Modelled from the spec: random_plane_at draws a disparity uniformly in
[MIN_D, MAX_D] and a slant from the per-pixel seed, builds (a, b, c) with
base point (w, h, d), and forces a = b = 0 when CONST_DISPARITIES is set. -/
def randomPlaneAt (p : Params) (seed : Nat) (w h : Nat) : Plane :=
  let d : Rat := (p.MIN_D : Rat) + (((seed % 1001 : Nat) : Rat) / 1000) * ((p.MAX_D : Rat) - (p.MIN_D : Rat))
  let a : Rat := if p.CONST_DISPARITIES then 0 else (((mix seed 1 % 201 : Nat) : Rat) - 100) / 100
  let b : Rat := if p.CONST_DISPARITIES then 0 else (((mix seed 2 % 201 : Nat) : Rat) - 100) / 100
  { a := a, b := b, c := d - a * (w : Rat) - b * (h : Rat) }

/-- Modelled from the spec: evaluating a plane at a pixel, clamped to
[MIN_D, MAX_D] when PLANES_SATURATION is set. -/
def Plane.evaluate (p : Params) (pl : Plane) (w h : Nat) : Rat :=
  let d := pl.a * (w : Rat) + pl.b * (h : Rat) + pl.c
  if p.PLANES_SATURATION then max (p.MIN_D : Rat) (min (p.MAX_D : Rat) d) else d

/-- Modelled from the spec: the disparity map one view's grid yields — each
pixel's plane, drawn from the deterministic per-pixel seed, evaluated at its
own coordinate.  The iterative optimizer between initialization and
extraction refines the planes but not the interface shape, and is not
modelled. -/
def disparityOfView (p : Params) (seed : Nat) (v : View) (img : ImageView) : DisparityMap :=
  let vTag : Nat := match v with | .left => 0 | .right => 1
  { width := img.width
    height := img.height
    get := fun w h => (randomPlaneAt p (pixelSeed (mix seed vTag) w h) w h).evaluate p w h
    valid := fun _ _ => true }

/-- Modelled from the spec: StereoImagePair::computeDisparity (declared in
the missing stereo.hpp; the caller in spmatch.cpp destructures its result as
a pair).  The core consumes the two immutable views and the parameter block
and emits two disparity maps, the first for the left view and the second for
the right view. -/
def computeDisparity (p : Params) (seed : Nat) (leftImg rightImg : ImageView) :
    DisparityMap × DisparityMap :=
  (disparityOfView p seed .left leftImg, disparityOfView p seed .right rightImg)

/-- Modelled from the spec: the RNG is seeded with a fixed value when
USE_PSEUDORAND is set (repeatable computation) and from a nondeterministic
entropy source otherwise. -/
def runSeed (p : Params) (entropy : Nat) : Nat :=
  if p.USE_PSEUDORAND then 0 else entropy

/-- Modelled from the spec: parameter validity enforced by the core before
any computation — WINDOW_SIZE odd, MAX_D > MIN_D, MAX_D > 0.  The check
itself lives in the headers absent from the sources; setDefaults in
spmatch.cpp documents the constraints ("Must be an odd number", "must be
positive") and an unrecognized OutOfBounds token is already rejected at
option parsing. -/
def paramsValid (p : Params) : Bool :=
  p.WINDOW_SIZE % 2 == 1 && p.MIN_D < p.MAX_D && 0 < p.MAX_D

/-! ## CSV output -/

/-- One line of a disparity CSV file: the pixel coordinate, the disparity
value, and the number of significant digits the stream writes it with
(std::setprecision). -/
structure CsvLine where
  w : Nat
  h : Nat
  d : Rat
  sigDigits : Nat
deriving DecidableEq, Repr

/-- The CSV writing loop of writeDisparityMap (spmatch.cpp lines 224-231):
for w over the width and, inside, h over the height, one line "w, h, d" is
written with std::setprecision(8). -/
def csvOfMap (wN hN : Nat) (get : Nat → Nat → Rat) : List CsvLine :=
  (List.range wN).flatMap fun w =>
    (List.range hN).map fun h => { w := w, h := h, d := get w h, sigDigits := 8 }

/-! ## Image normalization (missing image implementation, spec-modelled) -/

/-- The disparity values of the valid pixels of a map, in scan order. -/
def validValues (m : DisparityMap) : List Rat :=
  (List.range m.width).flatMap fun w =>
    (List.range m.height).filterMap fun h =>
      if m.valid w h then some (m.get w h) else none

/-- Minimum of a list of rationals (0 for the empty list). -/
def listMin : List Rat → Rat
  | [] => 0
  | x :: xs => xs.foldl min x

/-- Maximum of a list of rationals (0 for the empty list). -/
def listMax : List Rat → Rat
  | [] => 0
  | x :: xs => xs.foldl max x

/-- Modelled from the spec: Image::normalize — the min-to-max range of the
valid pixels is linearly rescaled to [0, 255] before the 8-bit grayscale
image is written.  (When the valid range is degenerate the rational division
by zero yields 0.) -/
def DisparityMap.normalize (m : DisparityMap) : DisparityMap :=
  let lo := listMin (validValues m)
  let hi := listMax (validValues m)
  { m with get := fun w h => (m.get w h - lo) * 255 / (hi - lo) }

/-! ## The writeDisparityMap pipeline and main -/

/-- Externally observable steps of a run, in order of occurrence. -/
inductive Ev where
  /-- The StereoImagePair constructor decoded the two input images. -/
  | imagesRead
  /-- The core computed disparities (pixels were processed). -/
  | pixelTouched
  /-- The two CSV files were written. -/
  | csvWritten
  /-- The two grayscale images were written. -/
  | imagesWritten
deriving DecidableEq, Repr

/-- The environment a run executes in: which paths are readable, which
output paths are writable, the decoded input images, and the entropy the
unseeded RNG would draw. -/
structure Env where
  readable : String → Bool
  writable : List Char → Bool
  leftImage : ImageView
  rightImage : ImageView
  entropy : Nat

/-- What a completed writeDisparityMap produced: the four paths, the two
CSV files (written from the raw maps, before normalization), and the two
normalized maps written as 8-bit grayscale images. -/
structure RunOutput where
  paths : OutPaths
  leftCsvLines : List CsvLine
  rightCsvLines : List CsvLine
  leftImgOut : DisparityMap
  rightImgOut : DisparityMap

/-- writeDisparityMap of spmatch.cpp: derive the four output paths (may
throw std::out_of_range), construct the StereoImagePair (reads the two
images), run computeDisparity, write the two CSV files from the raw maps
(both loops are bounded by the left map's sizes in the source), normalize
both maps and write them as images.  The parameter validation of the core
(spec-modelled) runs before any pixel is processed; an unwritable image
path makes the image write fail. -/
def writeDisparityMapRun (env : Env) (p : Params) (disparityPath : List Char) :
    Except Err RunOutput × List Ev :=
  match setOutputPaths disparityPath with
  | .error e => (.error e, [])
  | .ok paths =>
    if paramsValid p then
      let seed := runSeed p env.entropy
      let disp := computeDisparity p seed env.leftImage env.rightImage
      let leftCsvL := csvOfMap env.leftImage.width env.leftImage.height disp.1.get
      let rightCsvL := csvOfMap env.leftImage.width env.leftImage.height disp.2.get
      if env.writable paths.leftImg && env.writable paths.rightImg then
        (.ok { paths := paths
               leftCsvLines := leftCsvL
               rightCsvLines := rightCsvL
               leftImgOut := disp.1.normalize
               rightImgOut := disp.2.normalize },
         [.imagesRead, .pixelTouched, .csvWritten, .imagesWritten])
      else
        (.error .imageWriteFailed, [.imagesRead, .pixelTouched, .csvWritten])
    else
      (.error .invalidParameters, [.imagesRead])

/-- The command line after boost::program_options tokenization: the help
flag, the collected inputs, the output path, and each option's value when
given (none means the setDefaults value stays). -/
structure CmdLine where
  helpFlag : Bool
  inputs : List String
  outputPath : List Char
  alfaOpt : Option Rat
  tauColOpt : Option Rat
  tauGradOpt : Option Rat
  gammaOpt : Option Rat
  windowSizeOpt : Option Nat
  minDOpt : Option Int
  maxDOpt : Option Int
  iterationOpt : Option Nat
  maxSlopeOpt : Option Rat
  normalizeGradientsOpt : Option Bool
  oobToken : Option String
  resizeWindowOpt : Option Bool
  planesSaturationOpt : Option Bool
  usePseudorandOpt : Option Bool
  constDisparitiesOpt : Option Bool
  logOpt : Option Int

/-- po::store: every given option value is converted and stored over the
defaults; converting an unrecognized out_of_bounds token throws. -/
def storeParams (c : CmdLine) : Except Err Params :=
  let d := setDefaults
  match c.oobToken.map parseOutOfBounds with
  | some (.error _) => .error .invalidOptionValue
  | some (.ok oob) => .ok (storeRest c d oob)
  | none => .ok (storeRest c d d.OUT_OF_BOUNDS)
where
  storeRest (c : CmdLine) (d : Params) (oob : OutOfBounds) : Params :=
    { ALFA := c.alfaOpt.getD d.ALFA
      TAU_COL := c.tauColOpt.getD d.TAU_COL
      TAU_GRAD := c.tauGradOpt.getD d.TAU_GRAD
      GAMMA := c.gammaOpt.getD d.GAMMA
      WINDOW_SIZE := c.windowSizeOpt.getD d.WINDOW_SIZE
      MIN_D := c.minDOpt.getD d.MIN_D
      MAX_D := c.maxDOpt.getD d.MAX_D
      ITERATIONS := c.iterationOpt.getD d.ITERATIONS
      MAX_SLOPE := c.maxSlopeOpt.getD d.MAX_SLOPE
      NORMALIZE_GRADIENTS := c.normalizeGradientsOpt.getD d.NORMALIZE_GRADIENTS
      OUT_OF_BOUNDS := oob
      RESIZE_WINDOWS := c.resizeWindowOpt.getD d.RESIZE_WINDOWS
      PLANES_SATURATION := c.planesSaturationOpt.getD d.PLANES_SATURATION
      USE_PSEUDORAND := c.usePseudorandOpt.getD d.USE_PSEUDORAND
      CONST_DISPARITIES := c.constDisparitiesOpt.getD d.CONST_DISPARITIES
      LOG := c.logOpt.getD d.LOG }

/-- How a run of the process ends: a normal return from main with a code,
or an abnormal termination from an uncaught exception. -/
inductive RunOutcome where
  | exited (code : Nat)
  | fatal (e : Err)
deriving DecidableEq, Repr

/-- The process exit status: the returned code on a normal return, and the
nonzero abort status (SIGABRT via std::terminate) when an exception escapes
main. -/
def exitStatus : RunOutcome → Nat
  | .exited code => code
  | .fatal _ => 134

/-- main of spmatch.cpp: setDefaults, po::store (converts option values and
may throw), the help check (prints usage, returns 1), po::notify (enforces
the required inputs option), the two-images check, the existence check on
both input paths, then writeDisparityMap; a normal completion returns 0. -/
def mainRun (env : Env) (c : CmdLine) : RunOutcome × List Ev :=
  match storeParams c with
  | .error e => (.fatal e, [])
  | .ok p =>
    if c.helpFlag then (.exited 1, [])
    else if c.inputs.isEmpty then (.fatal .requiredOptionMissing, [])
    else if c.inputs.length != 2 then (.fatal .needTwoImages, [])
    else if c.inputs.any (fun s => ! env.readable s) then (.fatal .fileNotFound, [])
    else
      match writeDisparityMapRun env p c.outputPath with
      | (.ok _, evs) => (.exited 0, evs)
      | (.error e, evs) => (.fatal e, evs)

/-! ## Helper lemmas -/

/-- rfind misses exactly when the character is absent. -/
theorem rfindChar_eq_none {s : List Char} {c : Char} (h : c ∉ s) :
    rfindChar s c = none := by
  induction s with
  | nil => rfl
  | cons x xs ih =>
    simp only [List.mem_cons, not_or] at h
    rw [rfindChar, ih h.2]
    exact if_neg (fun hxc => h.1 (Eq.symm hxc))

/-- rfind on a string whose suffix after the last dot is dot-free finds that
last dot. -/
theorem rfindChar_append_dot (pre ext : List Char) (h : '.' ∉ ext) :
    rfindChar (pre ++ '.' :: ext) '.' = some pre.length := by
  induction pre with
  | nil =>
    rw [List.nil_append, rfindChar, rfindChar_eq_none h]
    simp
  | cons x xs ih =>
    rw [List.cons_append, rfindChar, ih]
    rfl

/-! ## Claims -/

/-- C6: parsing the out_of_bounds option maps exactly the five tokens
repeat, black, zero, error, nan to REPEAT_PIXEL, BLACK_PIXEL, ZERO_COST,
ERROR, NAN_COST respectively, and raises an error for every other token:
parsing succeeds if and only if the token is one of the five. -/
theorem C6_parseOutOfBounds_exactly_five :
    parseOutOfBounds "repeat" = .ok .REPEAT_PIXEL ∧
    parseOutOfBounds "black" = .ok .BLACK_PIXEL ∧
    parseOutOfBounds "zero" = .ok .ZERO_COST ∧
    parseOutOfBounds "error" = .ok .ERROR ∧
    parseOutOfBounds "nan" = .ok .NAN_COST ∧
    ∀ t : String, (∃ v, parseOutOfBounds t = .ok v) ↔
      t = "repeat" ∨ t = "black" ∨ t = "zero" ∨ t = "error" ∨ t = "nan" := by
  refine ⟨rfl, rfl, rfl, rfl, rfl, fun t => ⟨fun ⟨v, hv⟩ => ?_, fun h => ?_⟩⟩
  · by_cases h1 : t = "repeat"
    · exact .inl h1
    by_cases h2 : t = "black"
    · exact .inr (.inl h2)
    by_cases h3 : t = "zero"
    · exact .inr (.inr (.inl h3))
    by_cases h4 : t = "error"
    · exact .inr (.inr (.inr (.inl h4)))
    by_cases h5 : t = "nan"
    · exact .inr (.inr (.inr (.inr h5)))
    simp only [parseOutOfBounds, if_neg h1, if_neg h2, if_neg h3, if_neg h4,
      if_neg h5] at hv
    exact absurd hv (by simp)
  · rcases h with rfl | rfl | rfl | rfl | rfl
    · exact ⟨.REPEAT_PIXEL, rfl⟩
    · exact ⟨.BLACK_PIXEL, rfl⟩
    · exact ⟨.ZERO_COST, rfl⟩
    · exact ⟨.ERROR, rfl⟩
    · exact ⟨.NAN_COST, rfl⟩

/-- C2: the disparity-computation entry point consumes the two stereo views
and emits two disparity maps as a pair — the first component the left
view's map, the second the right view's — each with its own view's
dimensions, not a single map. -/
theorem C2_computeDisparity_pair (p : Params) (seed : Nat) (l r : ImageView) :
    computeDisparity p seed l r =
      (disparityOfView p seed .left l, disparityOfView p seed .right r) ∧
    (computeDisparity p seed l r).1.width = l.width ∧
    (computeDisparity p seed l r).1.height = l.height ∧
    (computeDisparity p seed l r).2.width = r.width ∧
    (computeDisparity p seed l r).2.height = r.height :=
  ⟨rfl, rfl, rfl, rfl, rfl⟩

/-- C9: writeDisparityMap derives its four output paths by editing the
position of the last dot of the output argument; when the argument contains
no dot, rfind yields npos and std::string::insert throws std::out_of_range
before the input images are read, so the run produces no events at all —
in particular no partial output. -/
theorem C9_no_dot_throws_before_read (path : List Char) (hnd : '.' ∉ path) :
    setOutputPaths path = .error .outOfRangeInsert ∧
    ∀ env p, writeDisparityMapRun env p path = (.error .outOfRangeInsert, []) ∧
      Ev.imagesRead ∉ (writeDisparityMapRun env p path).2 := by
  have hfind : rfindChar path '.' = none := rfindChar_eq_none hnd
  have hset : setOutputPaths path = .error .outOfRangeInsert := by
    rw [setOutputPaths, hfind]
  refine ⟨hset, fun env p => ?_⟩
  have hrun : writeDisparityMapRun env p path = (.error .outOfRangeInsert, []) := by
    rw [writeDisparityMapRun, hset]
  rw [hrun]
  exact ⟨rfl, List.not_mem_nil _⟩

/-- Witness for C9 at the concrete dot-free output argument "noext". -/
theorem C9_witness :
    setOutputPaths ("noext".toList) = .error .outOfRangeInsert :=
  (C9_no_dot_throws_before_read ("noext".toList) (by decide)).1

/-! ### Bounds of the normalized image values -/

/-- A left fold of min never exceeds its initial accumulator. -/
theorem foldl_min_le_init (xs : List Rat) (a : Rat) : xs.foldl min a ≤ a := by
  induction xs generalizing a with
  | nil => exact le_refl a
  | cons y ys ih => exact le_trans (ih (min a y)) (min_le_left a y)

/-- A left fold of min is below every list element. -/
theorem foldl_min_le_mem {xs : List Rat} {x : Rat} (a : Rat) (hx : x ∈ xs) :
    xs.foldl min a ≤ x := by
  induction xs generalizing a with
  | nil => exact absurd hx (List.not_mem_nil x)
  | cons y ys ih =>
    rcases List.mem_cons.1 hx with rfl | hmem
    · exact le_trans (foldl_min_le_init ys (min a x)) (min_le_right a x)
    · exact ih (min a y) hmem


/-- A left fold of max is at least its initial accumulator. -/
theorem init_le_foldl_max (xs : List Rat) (a : Rat) : a ≤ xs.foldl max a := by
  induction xs generalizing a with
  | nil => exact le_refl a
  | cons y ys ih => exact le_trans (le_max_left a y) (ih (max a y))

/-- A left fold of max is above every list element. -/
theorem mem_le_foldl_max {xs : List Rat} {x : Rat} (a : Rat) (hx : x ∈ xs) :
    x ≤ xs.foldl max a := by
  induction xs generalizing a with
  | nil => exact absurd hx (List.not_mem_nil x)
  | cons y ys ih =>
    rcases List.mem_cons.1 hx with rfl | hmem
    · exact le_trans (le_max_right a x) (init_le_foldl_max ys (max a x))
    · exact ih (max a y) hmem

/-- listMin is a lower bound of the list. -/
theorem listMin_le_of_mem {l : List Rat} {x : Rat} (hx : x ∈ l) : listMin l ≤ x := by
  cases l with
  | nil => exact absurd hx (List.not_mem_nil x)
  | cons y ys =>
    rcases List.mem_cons.1 hx with rfl | hmem
    · exact foldl_min_le_init ys x
    · exact foldl_min_le_mem y hmem

/-- listMax is an upper bound of the list. -/
theorem le_listMax_of_mem {l : List Rat} {x : Rat} (hx : x ∈ l) : x ≤ listMax l := by
  cases l with
  | nil => exact absurd hx (List.not_mem_nil x)
  | cons y ys =>
    rcases List.mem_cons.1 hx with rfl | hmem
    · exact init_le_foldl_max ys x
    · exact mem_le_foldl_max y hmem

/-- Every valid in-range pixel's disparity occurs among the valid values. -/
theorem get_mem_validValues (m : DisparityMap) (w h : Nat)
    (hw : w < m.width) (hh : h < m.height) (hv : m.valid w h = true) :
    m.get w h ∈ validValues m := by
  unfold validValues
  refine List.mem_flatMap.2 ⟨w, List.mem_range.2 hw, ?_⟩
  refine List.mem_filterMap.2 ⟨h, List.mem_range.2 hh, ?_⟩
  rw [hv]
  simp

/-- The normalized value of every valid pixel lies in [0, 255] whenever the
valid range is nondegenerate. -/
theorem normalize_mem_Icc (m : DisparityMap) (w h : Nat)
    (hw : w < m.width) (hh : h < m.height) (hv : m.valid w h = true)
    (hrange : listMin (validValues m) < listMax (validValues m)) :
    0 ≤ (m.normalize).get w h ∧ (m.normalize).get w h ≤ 255 := by
  have hmem := get_mem_validValues m w h hw hh hv
  have hlo : listMin (validValues m) ≤ m.get w h := listMin_le_of_mem hmem
  have hhi : m.get w h ≤ listMax (validValues m) := le_listMax_of_mem hmem
  have hpos : (0 : Rat) < listMax (validValues m) - listMin (validValues m) :=
    sub_pos.2 hrange
  have hval : (m.normalize).get w h =
      (m.get w h - listMin (validValues m)) * 255 /
        (listMax (validValues m) - listMin (validValues m)) := rfl
  rw [hval]
  constructor
  · exact div_nonneg (mul_nonneg (sub_nonneg.2 hlo) (by norm_num)) (le_of_lt hpos)
  · rw [div_le_iff₀ hpos]
    calc (m.get w h - listMin (validValues m)) * 255
        ≤ (listMax (validValues m) - listMin (validValues m)) * 255 :=
          mul_le_mul_of_nonneg_right (sub_le_sub_right hhi _) (by norm_num)
      _ = 255 * (listMax (validValues m) - listMin (validValues m)) := mul_comm _ _

/-- C5 counterexample: for the output argument "d.longextension" (a
path/name.ext form whose dot-suffix is longer than the 10 characters the
replace call covers) the text output path is not "dL.csv" — trailing
characters of the extension survive after ".csv". -/
theorem C5_counterexample :
    setOutputPaths ("d.longextension".toList) =
      .ok { leftImg := "dL.longextension".toList
            rightImg := "dR.longextension".toList
            leftCsv := "dL.csvsion".toList
            rightCsv := "dR.csvsion".toList } ∧
    ("dL.csvsion".toList) ≠ ("dL.csv".toList) :=
  ⟨rfl, by decide⟩

/-- C5 (amended): for every output argument of the form path/name.ext whose
final dot-suffix ".ext" is at most 10 characters long (and ext dot-free),
the image outputs go to path/nameL.ext and path/nameR.ext — written as the
disparity maps normalized so the valid-pixel range is linearly rescaled to
[0, 255] — and the text outputs go to path/nameL.csv and path/nameR.csv.
For longer extensions the replace(extPos, 10, "L.csv") call leaves trailing
extension characters after ".csv". -/
theorem C5_output_paths (pre ext : List Char)
    (hdot : '.' ∉ ext) (hlen : ext.length ≤ 9) :
    setOutputPaths (pre ++ '.' :: ext) =
      .ok { leftImg := pre ++ 'L' :: '.' :: ext
            rightImg := pre ++ 'R' :: '.' :: ext
            leftCsv := pre ++ ("L.csv".toList)
            rightCsv := pre ++ ("R.csv".toList) } ∧
    (∀ env p out evs,
      writeDisparityMapRun env p (pre ++ '.' :: ext) = (.ok out, evs) →
        out.paths.leftImg = pre ++ 'L' :: '.' :: ext ∧
        out.paths.rightImg = pre ++ 'R' :: '.' :: ext ∧
        out.paths.leftCsv = pre ++ ("L.csv".toList) ∧
        out.paths.rightCsv = pre ++ ("R.csv".toList) ∧
        out.leftImgOut =
          (computeDisparity p (runSeed p env.entropy)
            env.leftImage env.rightImage).1.normalize ∧
        out.rightImgOut =
          (computeDisparity p (runSeed p env.entropy)
            env.leftImage env.rightImage).2.normalize) ∧
    (∀ m : DisparityMap, ∀ w h, w < m.width → h < m.height →
      m.valid w h = true →
      listMin (validValues m) < listMax (validValues m) →
      0 ≤ (m.normalize).get w h ∧ (m.normalize).get w h ≤ 255) := by
  have hdrop : ('.' :: ext).drop 10 = ([] : List Char) :=
    List.drop_eq_nil_of_le (by simpa using Nat.succ_le_succ hlen)
  have hins : ∀ c : Char, strInsert (pre ++ '.' :: ext) pre.length [c] =
      pre ++ c :: '.' :: ext := by
    intro c
    unfold strInsert
    rw [List.take_left, List.drop_left, List.append_assoc]
    rfl
  have hrep : ∀ t : List Char, strReplace (pre ++ '.' :: ext) pre.length 10 t =
      pre ++ t := by
    intro t
    unfold strReplace
    rw [List.take_left, List.drop_append, hdrop, List.append_nil]
  have hset : setOutputPaths (pre ++ '.' :: ext) =
      .ok { leftImg := pre ++ 'L' :: '.' :: ext
            rightImg := pre ++ 'R' :: '.' :: ext
            leftCsv := pre ++ ("L.csv".toList)
            rightCsv := pre ++ ("R.csv".toList) } := by
    rw [setOutputPaths, rfindChar_append_dot pre ext hdot]
    simp only [hins, hrep]
  refine ⟨hset, fun env p out evs hrun => ?_,
    fun m w h hw hh hv hr => normalize_mem_Icc m w h hw hh hv hr⟩
  simp only [writeDisparityMapRun, hset] at hrun
  by_cases hvalid : paramsValid p = true
  · simp only [hvalid, if_true] at hrun
    by_cases hwr : (env.writable (pre ++ 'L' :: '.' :: ext) &&
        env.writable (pre ++ 'R' :: '.' :: ext)) = true
    · simp only [hwr, if_true] at hrun
      rw [Prod.mk.injEq] at hrun
      have hout := Except.ok.inj hrun.1
      rw [← hout]
      exact ⟨rfl, rfl, rfl, rfl, rfl, rfl⟩
    · simp only [hwr, if_false] at hrun
      exact absurd hrun (by simp)
  · simp only [hvalid, if_false] at hrun
    exact absurd hrun (by simp)

/-- Witness for C5 (amended) at the concrete output argument "d.png". -/
theorem C5_witness :
    setOutputPaths ("d.png".toList) =
      .ok { leftImg := "dL.png".toList
            rightImg := "dR.png".toList
            leftCsv := "dL.csv".toList
            rightCsv := "dR.csv".toList } :=
  (C5_output_paths (['d']) ("png".toList) (by decide) (by decide)).1

/-! ### Inversion of a completed writeDisparityMap run -/

/-- A run of writeDisparityMap that completes produced exactly the four
derived paths, the two CSV files written from the raw maps (both loops
bounded by the left map's sizes), and the two normalized maps. -/
theorem writeDisparityMapRun_ok_inv (env : Env) (p : Params) (path : List Char)
    (out : RunOutput) (evs : List Ev)
    (hrun : writeDisparityMapRun env p path = (.ok out, evs)) :
    setOutputPaths path = .ok out.paths ∧
    out.leftCsvLines = csvOfMap env.leftImage.width env.leftImage.height
      (computeDisparity p (runSeed p env.entropy) env.leftImage env.rightImage).1.get ∧
    out.rightCsvLines = csvOfMap env.leftImage.width env.leftImage.height
      (computeDisparity p (runSeed p env.entropy) env.leftImage env.rightImage).2.get ∧
    out.leftImgOut =
      (computeDisparity p (runSeed p env.entropy) env.leftImage env.rightImage).1.normalize ∧
    out.rightImgOut =
      (computeDisparity p (runSeed p env.entropy) env.leftImage env.rightImage).2.normalize ∧
    evs = [.imagesRead, .pixelTouched, .csvWritten, .imagesWritten] := by
  unfold writeDisparityMapRun at hrun
  cases hE : setOutputPaths path with
  | error e =>
    rw [hE] at hrun
    exact absurd hrun (by simp)
  | ok paths =>
    rw [hE] at hrun
    simp only at hrun
    by_cases hvalid : paramsValid p = true
    · simp only [hvalid, if_true] at hrun
      by_cases hwr : (env.writable paths.leftImg && env.writable paths.rightImg) = true
      · simp only [hwr, if_true] at hrun
        rw [Prod.mk.injEq] at hrun
        have hout := Except.ok.inj hrun.1
        rw [← hout, ← hrun.2]
        exact ⟨rfl, rfl, rfl, rfl, rfl, rfl⟩
      · simp only [hwr, if_false] at hrun
        exact absurd hrun (by simp)
    · simp only [hvalid, if_false] at hrun
      exact absurd hrun (by simp)

/-! ### Structure of the CSV line list -/

/-- Appending one more outer-loop iteration to the CSV list. -/
theorem csvOfMap_succ (wN hN : Nat) (get : Nat → Nat → Rat) :
    csvOfMap (wN + 1) hN get =
      csvOfMap wN hN get ++
        (List.range hN).map
          (fun h => { w := wN, h := h, d := get wN h, sigDigits := 8 }) := by
  unfold csvOfMap
  rw [List.range_succ, List.flatMap_append]
  simp

/-- The CSV file has one line per pixel. -/
theorem csvOfMap_length (wN hN : Nat) (get : Nat → Nat → Rat) :
    (csvOfMap wN hN get).length = wN * hN := by
  induction wN with
  | zero => simp [csvOfMap]
  | succ n ih =>
    rw [csvOfMap_succ, List.length_append, ih, List.length_map, List.length_range,
      Nat.succ_mul]

/-- The line for pixel (w, h) sits at index w * hN + h: the enumeration is
row-major with w the outer (slowest-varying) index. -/
theorem csvOfMap_getElem (wN hN : Nat) (get : Nat → Nat → Rat)
    (w h : Nat) (hw : w < wN) (hh : h < hN) :
    (csvOfMap wN hN get)[w * hN + h]? =
      some { w := w, h := h, d := get w h, sigDigits := 8 } := by
  induction wN with
  | zero => exact absurd hw (Nat.not_lt_zero w)
  | succ n ih =>
    rw [csvOfMap_succ]
    rcases Nat.lt_succ_iff_lt_or_eq.1 hw with hlt | rfl
    · have hidx : w * hN + h < (csvOfMap n hN get).length := by
        rw [csvOfMap_length]
        calc w * hN + h < w * hN + hN := Nat.add_lt_add_left hh _
          _ = (w + 1) * hN := (Nat.succ_mul w hN).symm
          _ ≤ n * hN := Nat.mul_le_mul_right hN hlt
      rw [List.getElem?_append_left hidx]
      exact ih hlt
    · have hidx : w * hN + h = (csvOfMap w hN get).length + h := by
        rw [csvOfMap_length]
      rw [hidx, List.getElem?_append_right (Nat.le_add_right _ _), Nat.add_sub_cancel_left,
        List.getElem?_map, List.getElem?_range hh]
      rfl

/-- C4: for every run that completes, each of the two CSV files has one
line per pixel of the form (w, h, disparity) written with 8 significant
digits, enumerating all (w, h) in row-major order with w the outer
(slowest-varying) index: the line for (w, h) is at index w * H + h. -/
theorem C4_csv_row_major (env : Env) (p : Params) (path : List Char)
    (out : RunOutput) (evs : List Ev)
    (hrun : writeDisparityMapRun env p path = (.ok out, evs)) :
    out.leftCsvLines.length = env.leftImage.width * env.leftImage.height ∧
    out.rightCsvLines.length = env.leftImage.width * env.leftImage.height ∧
    ∀ w h, w < env.leftImage.width → h < env.leftImage.height →
      out.leftCsvLines[w * env.leftImage.height + h]? =
        some { w := w, h := h
               d := (computeDisparity p (runSeed p env.entropy)
                      env.leftImage env.rightImage).1.get w h
               sigDigits := 8 } ∧
      out.rightCsvLines[w * env.leftImage.height + h]? =
        some { w := w, h := h
               d := (computeDisparity p (runSeed p env.entropy)
                      env.leftImage env.rightImage).2.get w h
               sigDigits := 8 } := by
  obtain ⟨-, hl, hr, -, -, -⟩ := writeDisparityMapRun_ok_inv env p path out evs hrun
  rw [hl, hr]
  exact ⟨csvOfMap_length _ _ _, csvOfMap_length _ _ _,
    fun w h hw hh => ⟨csvOfMap_getElem _ _ _ w h hw hh, csvOfMap_getElem _ _ _ w h hw hh⟩⟩

/-! ### A concrete environment for witnesses -/

/-- A concrete 1-by-1 all-black image. -/
def witnessImage : ImageView where
  width := 1
  height := 1
  pixel := fun _ _ => (0, 0, 0)

/-- A concrete environment: every path readable and writable, 1-by-1
images, entropy 0. -/
def witnessEnv : Env where
  readable := fun _ => true
  writable := fun _ => true
  leftImage := witnessImage
  rightImage := witnessImage
  entropy := 0

/-- A placeholder disparity map. -/
def junkMap : DisparityMap where
  width := 0
  height := 0
  get := fun _ _ => 0
  valid := fun _ _ => false

/-- A placeholder run output. -/
def junkOut : RunOutput where
  paths := { leftImg := [], rightImg := [], leftCsv := [], rightCsv := [] }
  leftCsvLines := []
  rightCsvLines := []
  leftImgOut := junkMap
  rightImgOut := junkMap

/-- The output of the concrete witness run. -/
def witnessOut : RunOutput :=
  ((writeDisparityMapRun witnessEnv setDefaults ("disparity.png".toList)).1).toOption.getD junkOut

/-- Witness for C4: the concrete 1-by-1 run completes and its CSV files
each hold exactly one line. -/
theorem C4_witness :
    witnessOut.leftCsvLines.length = 1 * 1 ∧
    witnessOut.rightCsvLines.length = 1 * 1 :=
  have hrun : writeDisparityMapRun witnessEnv setDefaults ("disparity.png".toList) =
      (.ok witnessOut,
        [.imagesRead, .pixelTouched, .csvWritten, .imagesWritten]) := rfl
  ⟨(C4_csv_row_major witnessEnv setDefaults _ witnessOut _ hrun).1,
    (C4_csv_row_major witnessEnv setDefaults _ witnessOut _ hrun).2.1⟩

/-! ### Runs that never reach the computation -/

/-- With an invalid parameter block the run never processes a pixel: either
the path derivation throws first, or the core rejects the parameters right
after the images are read. -/
theorem writeDisparityMapRun_invalid (env : Env) (p : Params) (path : List Char)
    (hinv : paramsValid p = false) :
    Ev.pixelTouched ∉ (writeDisparityMapRun env p path).2 ∧
    ((rfindChar path '.').isSome = true →
      writeDisparityMapRun env p path = (.error .invalidParameters, [.imagesRead])) := by
  by_cases hs : (rfindChar path '.').isSome = true
  · obtain ⟨i, hf⟩ := Option.isSome_iff_exists.1 hs
    have hE : setOutputPaths path = .ok
        { leftImg := strInsert path i ['L']
          rightImg := strInsert path i ['R']
          leftCsv := strReplace path i 10 ("L.csv".toList)
          rightCsv := strReplace path i 10 ("R.csv".toList) } := by
      rw [setOutputPaths, hf]
    have hrun : writeDisparityMapRun env p path =
        (.error .invalidParameters, [.imagesRead]) := by
      simp [writeDisparityMapRun, hE, hinv]
    exact ⟨by rw [hrun]; simp, fun _ => hrun⟩
  · have hf : rfindChar path '.' = none := by
      cases hf : rfindChar path '.' with
      | none => rfl
      | some i => rw [hf] at hs; simp at hs
    have hrun : writeDisparityMapRun env p path = (.error .outOfRangeInsert, []) := by
      rw [writeDisparityMapRun, setOutputPaths, hf]
    exact ⟨by rw [hrun]; simp, fun h2 => absurd h2 hs⟩

/-- Once the command line passes the help, required-option, two-images and
existence checks, main just runs writeDisparityMap and returns 0 when it
completes. -/
theorem mainRun_run (env : Env) (c : CmdLine) (p : Params)
    (hp : storeParams c = .ok p) (hh : c.helpFlag = false)
    (h2 : c.inputs.length = 2) (hr : ∀ s ∈ c.inputs, env.readable s = true) :
    mainRun env c =
      (match writeDisparityMapRun env p c.outputPath with
        | (.ok _, evs) => (.exited 0, evs)
        | (.error e, evs) => (.fatal e, evs)) := by
  have h0 : c.inputs.isEmpty = false := by
    cases hc : c.inputs with
    | nil => rw [hc] at h2; simp at h2
    | cons a t => rfl
  have hne : (c.inputs.length != 2) = false := by rw [h2]; rfl
  have hany : c.inputs.any (fun s => ! env.readable s) = false := by
    rw [List.any_eq_false]
    intro s hs
    rw [hr s hs]
    simp
  simp [mainRun, hp, hh, h0, hne, hany]

/-- C1: for every run in which the parameter block is invalid (even
WINDOW_SIZE, MAX_D ≤ MIN_D, MAX_D ≤ 0, or an unrecognized out_of_bounds
token), the program fails fatally before any computation touches a pixel;
with an unrecognized enum token the failure happens while option values are
converted, and a run that passes the CLI checks with invalid numeric
parameters dies with the invalid-parameters error having produced no
pixel-touching event. -/
theorem C1_invalid_params_fatal (env : Env) (c : CmdLine) :
    (∀ t, c.oobToken = some t → (∀ v, ¬ parseOutOfBounds t = .ok v) →
      mainRun env c = (.fatal .invalidOptionValue, [])) ∧
    (∀ p, storeParams c = .ok p → paramsValid p = false →
      Ev.pixelTouched ∉ (mainRun env c).2 ∧
      (c.helpFlag = false → c.inputs.length = 2 →
        (∀ s ∈ c.inputs, env.readable s = true) →
        (rfindChar c.outputPath '.').isSome = true →
        (mainRun env c).1 = .fatal .invalidParameters)) := by
  constructor
  · intro t ht hbad
    have hstore : storeParams c = .error .invalidOptionValue := by
      unfold storeParams
      rw [ht]
      cases hpt : parseOutOfBounds t with
      | error s => simp [hpt]
      | ok v => exact absurd hpt (hbad v)
    simp [mainRun, hstore]
  · intro p hp hinv
    have hw := writeDisparityMapRun_invalid env p c.outputPath hinv
    constructor
    · by_cases hh : c.helpFlag = true
      · simp [mainRun, hp, hh]
      · by_cases h0 : c.inputs.isEmpty = true
        · simp [mainRun, hp, hh, h0]
        · by_cases hne : (c.inputs.length != 2) = true
          · simp [mainRun, hp, hh, h0, hne]
          · by_cases hany : c.inputs.any (fun s => ! env.readable s) = true
            · simp [mainRun, hp, hh, h0, hne, hany]
            · have hmain : mainRun env c =
                  (match writeDisparityMapRun env p c.outputPath with
                    | (.ok _, evs) => (.exited 0, evs)
                    | (.error e, evs) => (.fatal e, evs)) := by
                simp only [Bool.not_eq_true] at hh h0 hne hany
                simp [mainRun, hp, hh, h0, hne, hany]
              rw [hmain]
              cases hE : writeDisparityMapRun env p c.outputPath with
              | mk fst evs =>
                cases fst with
                | ok out => rw [hE] at hw; exact hw.1
                | error e => rw [hE] at hw; exact hw.1
    · intro hh h2 hr hdot
      rw [mainRun_run env c p hp hh h2 hr, hw.2 hdot]

/-- C3: the process exit code is 0 on a successful run, 1 when help is
shown, and nonzero (the abort status 134) whenever command-line validation
fails — a bad option value, missing required inputs, not two images, a
missing input file — or the disparity run itself fails (including an
unwritable output image). -/
theorem C3_exit_codes (env : Env) (c : CmdLine) :
    (∀ p out evs, storeParams c = .ok p → c.helpFlag = false →
      c.inputs.length = 2 → (∀ s ∈ c.inputs, env.readable s = true) →
      writeDisparityMapRun env p c.outputPath = (.ok out, evs) →
      exitStatus (mainRun env c).1 = 0) ∧
    (∀ p, storeParams c = .ok p → c.helpFlag = true →
      exitStatus (mainRun env c).1 = 1) ∧
    (∀ e, storeParams c = .error e → exitStatus (mainRun env c).1 ≠ 0) ∧
    (∀ p, storeParams c = .ok p → c.helpFlag = false → ¬ c.inputs.length = 2 →
      exitStatus (mainRun env c).1 ≠ 0) ∧
    (∀ p s, storeParams c = .ok p → c.helpFlag = false → c.inputs.length = 2 →
      s ∈ c.inputs → env.readable s = false →
      exitStatus (mainRun env c).1 ≠ 0) ∧
    (∀ p e evs, storeParams c = .ok p → c.helpFlag = false →
      c.inputs.length = 2 → (∀ s ∈ c.inputs, env.readable s = true) →
      writeDisparityMapRun env p c.outputPath = (.error e, evs) →
      exitStatus (mainRun env c).1 ≠ 0) := by
  refine ⟨?_, ?_, ?_, ?_, ?_, ?_⟩
  · intro p out evs hp hh h2 hr hwrite
    rw [mainRun_run env c p hp hh h2 hr, hwrite]
    rfl
  · intro p hp hh
    simp [mainRun, hp, hh, exitStatus]
  · intro e he
    have : mainRun env c = (.fatal e, []) := by simp [mainRun, he]
    rw [this]
    simp [exitStatus]
  · intro p hp hh h2
    by_cases h0 : c.inputs.isEmpty = true
    · have : mainRun env c = (.fatal .requiredOptionMissing, []) := by
        simp [mainRun, hp, hh, h0]
      rw [this]
      decide
    · have hne : (c.inputs.length != 2) = true := by
        simp only [bne_iff_ne, ne_eq]
        exact h2
      have : mainRun env c = (.fatal .needTwoImages, []) := by
        simp [mainRun, hp, hh, h0, hne]
      rw [this]
      simp [exitStatus]
  · intro p s hp hh h2 hs hrs
    have h0 : c.inputs.isEmpty = false := by
      cases hc : c.inputs with
      | nil => rw [hc] at h2; simp at h2
      | cons a t => rfl
    have hne : (c.inputs.length != 2) = false := by rw [h2]; rfl
    have hany : c.inputs.any (fun s => ! env.readable s) = true :=
      List.any_eq_true.2 ⟨s, hs, by rw [hrs]; rfl⟩
    have : mainRun env c = (.fatal .fileNotFound, []) := by
      simp [mainRun, hp, hh, h0, hne, hany]
    rw [this]
    simp [exitStatus]
  · intro p e evs hp hh h2 hr hwrite
    rw [mainRun_run env c p hp hh h2 hr, hwrite]
    simp [exitStatus]

/-- C7: when at least one of the two input image paths is unreadable, the
program fails fatally with the file-not-found error before the disparity
computation starts (no run event is produced at all). -/
theorem C7_unreadable_input_fatal (env : Env) (c : CmdLine) (p : Params) (s : String)
    (hp : storeParams c = .ok p) (hh : c.helpFlag = false)
    (h2 : c.inputs.length = 2) (hs : s ∈ c.inputs)
    (hrs : env.readable s = false) :
    mainRun env c = (.fatal .fileNotFound, []) := by
  have h0 : c.inputs.isEmpty = false := by
    cases hc : c.inputs with
    | nil => rw [hc] at h2; simp at h2
    | cons a t => rfl
  have hne : (c.inputs.length != 2) = false := by rw [h2]; rfl
  have hany : c.inputs.any (fun s => ! env.readable s) = true :=
    List.any_eq_true.2 ⟨s, hs, by rw [hrs]; rfl⟩
  simp [mainRun, hp, hh, h0, hne, hany]

/-- C10: when the help flag is on the command line (and option-value
conversion succeeded, which po::store does before the help check), main
prints the usage text and returns 1 without running po::notify — so help is
shown even when the mandatory input images are missing, the inputs being
arbitrary here. -/
theorem C10_help_before_required (env : Env) (c : CmdLine) (p : Params)
    (hp : storeParams c = .ok p) (hh : c.helpFlag = true) :
    mainRun env c = (.exited 1, []) := by
  simp [mainRun, hp, hh]

/-- C8: two runs with USE_PSEUDORAND true on the same inputs and the same
parameters (the model is a fixed worker count) produce identical results —
in particular bitwise-identical CSV output — whatever entropy the unseeded
RNG source would otherwise have supplied to each run. -/
theorem C8_pseudorand_deterministic
    (readable : String → Bool) (writable : List Char → Bool)
    (l r : ImageView) (e1 e2 : Nat) (p : Params) (path : List Char)
    (h : p.USE_PSEUDORAND = true) :
    writeDisparityMapRun ⟨readable, writable, l, r, e1⟩ p path =
      writeDisparityMapRun ⟨readable, writable, l, r, e2⟩ p path ∧
    ∀ out1 evs1 out2 evs2,
      writeDisparityMapRun ⟨readable, writable, l, r, e1⟩ p path = (.ok out1, evs1) →
      writeDisparityMapRun ⟨readable, writable, l, r, e2⟩ p path = (.ok out2, evs2) →
      out1.leftCsvLines = out2.leftCsvLines ∧
      out1.rightCsvLines = out2.rightCsvLines := by
  have hseed : ∀ e : Nat, runSeed p e = 0 := fun e => by rw [runSeed, if_pos h]
  have hmain : writeDisparityMapRun ⟨readable, writable, l, r, e1⟩ p path =
      writeDisparityMapRun ⟨readable, writable, l, r, e2⟩ p path := by
    simp only [writeDisparityMapRun, hseed]
  refine ⟨hmain, fun out1 evs1 out2 evs2 h1 h2 => ?_⟩
  rw [hmain, h2] at h1
  have hout := Except.ok.inj (congrArg Prod.fst h1)
  rw [hout]
  exact ⟨rfl, rfl⟩

/-! ### Witnesses for the command-line claims -/

/-- A command line with both images given and every option left at its
default. -/
def baseCmd : CmdLine where
  helpFlag := false
  inputs := ["left.png", "right.png"]
  outputPath := "disparity.png".toList
  alfaOpt := none
  tauColOpt := none
  tauGradOpt := none
  gammaOpt := none
  windowSizeOpt := none
  minDOpt := none
  maxDOpt := none
  iterationOpt := none
  maxSlopeOpt := none
  normalizeGradientsOpt := none
  oobToken := none
  resizeWindowOpt := none
  planesSaturationOpt := none
  usePseudorandOpt := none
  constDisparitiesOpt := none
  logOpt := none

/-- The defaults with the even window size 4. -/
def params4 : Params := { setDefaults with WINDOW_SIZE := 4 }

/-- Witness for C1: the concrete run with WINDOW_SIZE = 4 (and readable
images, the default output path) dies with the invalid-parameters error and
never touches a pixel. -/
theorem C1_witness :
    (mainRun witnessEnv { baseCmd with windowSizeOpt := some 4 }).1 =
      .fatal .invalidParameters ∧
    Ev.pixelTouched ∉ (mainRun witnessEnv { baseCmd with windowSizeOpt := some 4 }).2 :=
  have h := (C1_invalid_params_fatal witnessEnv
    { baseCmd with windowSizeOpt := some 4 }).2 params4 rfl rfl
  ⟨h.2 rfl rfl (fun s _ => rfl) (by decide), h.1⟩

/-- Witness for C3 on two concrete runs: the all-good run exits 0, and the
run whose input files are unreadable ends with a nonzero status. -/
theorem C3_witness :
    exitStatus (mainRun witnessEnv baseCmd).1 = 0 ∧
    exitStatus (mainRun { witnessEnv with readable := fun _ => false } baseCmd).1 ≠ 0 :=
  ⟨(C3_exit_codes witnessEnv baseCmd).1 setDefaults witnessOut
      [.imagesRead, .pixelTouched, .csvWritten, .imagesWritten]
      rfl rfl rfl (fun s _ => rfl) rfl,
    (C3_exit_codes { witnessEnv with readable := fun _ => false } baseCmd).2.2.2.2.1
      setDefaults "left.png" rfl rfl rfl (by simp [baseCmd]) rfl⟩

/-- Witness for C7: with both concrete input paths unreadable the run dies
with file-not-found before anything else happens. -/
theorem C7_witness :
    mainRun { witnessEnv with readable := fun _ => false } baseCmd =
      (.fatal .fileNotFound, []) :=
  C7_unreadable_input_fatal { witnessEnv with readable := fun _ => false }
    baseCmd setDefaults "left.png" rfl rfl rfl (by simp [baseCmd]) rfl

/-- Witness for C10: a concrete command line carrying only the help flag —
the mandatory inputs absent — still exits with code 1. -/
theorem C10_witness :
    mainRun witnessEnv { baseCmd with helpFlag := true, inputs := [] } =
      (.exited 1, []) :=
  C10_help_before_required witnessEnv
    { baseCmd with helpFlag := true, inputs := [] } setDefaults rfl rfl

/-- The defaults with the pseudorandom flag on. -/
def pseudoParams : Params := { setDefaults with USE_PSEUDORAND := true }

/-- Witness for C8: the concrete pseudorandom 1-by-1 run with entropy 0
equals the one with entropy 1. -/
theorem C8_witness :
    writeDisparityMapRun ⟨fun _ => true, fun _ => true, witnessImage, witnessImage, 0⟩
        pseudoParams ("disparity.png".toList) =
      writeDisparityMapRun ⟨fun _ => true, fun _ => true, witnessImage, witnessImage, 1⟩
        pseudoParams ("disparity.png".toList) :=
  (C8_pseudorand_deterministic (fun _ => true) (fun _ => true)
    witnessImage witnessImage 0 1 pseudoParams ("disparity.png".toList) rfl).1

end SPMatch
